import Mathlib

/-!
Shallow embedding of `src/main.py` (DCAlytics): a DCA trading decision
engine with a fixed-ratio hedge and a threshold risk check, plus the
in-memory portfolio/configuration state and the API operations that
read and mutate it.

Modelling conventions:
* Python floats are modelled as rationals (`ℚ`); the float literal `0.1`
  becomes `1/10`, `0.3` becomes `3/10`, and so on.
* `datetime.now().isoformat()` timestamps are modelled as an opaque `Nat`
  argument threaded into the functions that read the clock.
* `hash(str(datetime.now()))` in `execute_trade` is modelled as an
  arbitrary integer argument; Python's `%` on a positive modulus is
  `Int.emod` (result in `[0, 10000)`).
* Python's `ZeroDivisionError` (raised by `config.dca_amount /
  current_price` when `current_price == 0.0`) is modelled by returning
  `none`; all other code paths are total.
-/

/-- `TradingConfig` pydantic model, `src/main.py` lines 23-29.
Field defaults are recorded in `default_config` below.  Note the model
declares no validators: any float/int/string values type-check. -/
structure TradingConfig where
  symbol : String
  dca_amount : ℚ
  dca_interval : Int
  hedge_ratio : ℚ
  risk_limit : ℚ
  take_profit : ℚ
  deriving Repr, DecidableEq

/-- The field defaults of `TradingConfig` (`src/main.py` lines 24-29):
`"BTC/USD"`, `100.0`, `24`, `0.3`, `0.1`, `0.15`. -/
def default_config : TradingConfig :=
  { symbol := "BTC/USD"
    dca_amount := 100
    dca_interval := 24
    hedge_ratio := 3/10
    risk_limit := 1/10
    take_profit := 3/20 }

/-- The `"type"` key of the trade-intent dictionaries produced by the
engine: `"DCA_BUY"` (line 57) or `"HEDGE"` (line 69). -/
inductive IntentType where
  | DCA_BUY : IntentType
  | HEDGE : IntentType
  deriving Repr, DecidableEq

/-- A trade-intent dictionary as built by `calculate_dca_position`
(lines 56-62) and `calculate_hedge` (lines 68-73).  The hedge dictionary
has no `"price"` key, hence `price : Option ℚ`. -/
structure TradeIntent where
  type : IntentType
  symbol : String
  size : ℚ
  price : Option ℚ
  timestamp : Nat
  deriving Repr, DecidableEq

/-- `Portfolio` pydantic model, `src/main.py` lines 35-39. -/
structure Portfolio where
  total_value : ℚ
  positions : List TradeIntent
  pnl : ℚ
  trades : List TradeIntent
  deriving Repr, DecidableEq

/-- `TradeExecution` pydantic model, `src/main.py` lines 31-33. -/
structure TradeExecution where
  config : TradingConfig
  simulate : Bool
  deriving Repr, DecidableEq

/-- The dictionary returned by `TradingEngine.assess_risk`,
`src/main.py` lines 79-84. -/
structure RiskAssessment where
  current_risk : ℚ
  risk_limit : ℚ
  within_limits : Bool
  recommendation : String
  deriving Repr, DecidableEq

/-- The whole in-memory state of the process: the globals
`current_config` (line 42) and `portfolio_data` (lines 43-48). -/
structure SystemState where
  current_config : TradingConfig
  portfolio_data : Portfolio
  deriving Repr, DecidableEq

/-- The initial value of `portfolio_data` (`src/main.py` lines 43-48):
`total_value=10000.0`, empty positions, `pnl=0.0`, empty trades. -/
def init_portfolio : Portfolio :=
  { total_value := 10000, positions := [], pnl := 0, trades := [] }

/-- Process-start state: `current_config = TradingConfig()` (line 42)
and the seed portfolio (lines 43-48). -/
def init_state : SystemState :=
  { current_config := default_config, portfolio_data := init_portfolio }

/-- `TradingEngine.calculate_dca_position`, `src/main.py` lines 52-62.
`position_size = config.dca_amount / current_price`; when
`current_price = 0` the Python division raises `ZeroDivisionError`,
modelled as `none`. -/
def calculate_dca_position (config : TradingConfig) (current_price : ℚ)
    (now : Nat) : Option TradeIntent :=
  if current_price = 0 then none
  else some
    { type := IntentType.DCA_BUY
      symbol := config.symbol
      size := config.dca_amount / current_price
      price := some current_price
      timestamp := now }

/-- `TradingEngine.calculate_hedge`, `src/main.py` lines 64-73.
`hedge_size = position_value * config.hedge_ratio`; the symbol is
`f"{config.symbol}_HEDGE"`; no `"price"` key. -/
def calculate_hedge (config : TradingConfig) (position_value : ℚ)
    (now : Nat) : TradeIntent :=
  { type := IntentType.HEDGE
    symbol := config.symbol ++ "_HEDGE"
    size := position_value * config.hedge_ratio
    price := none
    timestamp := now }

/-- `TradingEngine.assess_risk`, `src/main.py` lines 75-84.
`risk_percentage = abs(pnl) / total_value if total_value > 0 else 0`. -/
def assess_risk (portfolio : Portfolio) (config : TradingConfig) :
    RiskAssessment :=
  let risk_percentage : ℚ :=
    if 0 < portfolio.total_value then |portfolio.pnl| / portfolio.total_value
    else 0
  { current_risk := risk_percentage
    risk_limit := config.risk_limit
    within_limits := decide (risk_percentage ≤ config.risk_limit)
    recommendation :=
      if config.risk_limit < risk_percentage then "REDUCE_POSITION"
      else "CONTINUE" }

/-- `GET /config` (`get_config`), `src/main.py` lines 91-94: returns the
global `current_config`; touches no state. -/
def get_config (s : SystemState) : TradingConfig :=
  s.current_config

/-- `POST /config` (`update_config`), `src/main.py` lines 96-101:
rebinds the global `current_config` to the supplied configuration
wholesale and returns a message together with the new configuration.
No field of the incoming configuration is inspected or validated. -/
def update_config (config : TradingConfig) (s : SystemState) :
    (String × TradingConfig) × SystemState :=
  (("Configuration updated", config), { s with current_config := config })

/-- The mocked market price computed at `src/main.py` line 109:
`50000.0 + (hash(str(datetime.now())) % 10000 - 5000)` where the hash is
an arbitrary integer; Python's `%` with positive modulus is `Int.emod`. -/
def mock_price (hash_value : Int) : ℚ :=
  50000 + ((hash_value.emod 10000 - 5000 : ℤ) : ℚ)

/-- The bundle returned by `execute_trade`, `src/main.py` lines 128-134. -/
structure ExecutionResult where
  execution_result : String
  trades : List TradeIntent
  portfolio : Portfolio
  risk_assessment : RiskAssessment
  current_price : ℚ
  deriving Repr, DecidableEq

/-- The body of `POST /execute` (`execute_trade`, `src/main.py`
lines 103-134) from line 112 on, parametric in the already-computed
`current_price`: compute the DCA intent and the hedge intent (the hedge
notional fed in is `execution.config.dca_amount`, line 115), append the
DCA intent to `positions` and both intents to `trades` (lines 118-119),
overwrite `pnl` with `total_value * ((current_price - 50000) / 50000) *
0.1` (lines 122-123), assess risk on the updated portfolio (line 126)
and return the result bundle.  `none` exactly when the DCA sizing
division raises (price zero); in that case no state is touched, since
the raise happens at line 112, before the appends. -/
def execute_with_price (execution : TradeExecution) (current_price : ℚ)
    (now : Nat) (s : SystemState) : Option (ExecutionResult × SystemState) :=
  match calculate_dca_position execution.config current_price now with
  | none => none
  | some dca_trade =>
    let hedge_trade := calculate_hedge execution.config
      execution.config.dca_amount now
    let p0 := s.portfolio_data
    let p1 : Portfolio :=
      { p0 with
        positions := p0.positions ++ [dca_trade]
        trades := p0.trades ++ [dca_trade, hedge_trade] }
    let price_change := (current_price - 50000) / 50000
    let p2 : Portfolio :=
      { p1 with pnl := p1.total_value * price_change * (1/10) }
    let risk_assessment := assess_risk p2 execution.config
    some
      ({ execution_result := if execution.simulate then "SUCCESS" else "EXECUTED"
         trades := [dca_trade, hedge_trade]
         portfolio := p2
         risk_assessment := risk_assessment
         current_price := current_price },
       { s with portfolio_data := p2 })

/-- `POST /execute` (`execute_trade`), `src/main.py` lines 103-134: the
mocked price of line 109 followed by the cycle body. -/
def execute_trade (execution : TradeExecution) (hash_value : Int)
    (now : Nat) (s : SystemState) : Option (ExecutionResult × SystemState) :=
  execute_with_price execution (mock_price hash_value) now s

/-- `GET /portfolio` (`get_portfolio`), `src/main.py` lines 136-139:
returns the global `portfolio_data`; touches no state. -/
def get_portfolio (s : SystemState) : Portfolio :=
  s.portfolio_data

/-- `GET /risk-analysis` (`get_risk_analysis`), `src/main.py`
lines 141-145: risk assessment of the current portfolio under the
current configuration; touches no state. -/
def get_risk_analysis (s : SystemState) : RiskAssessment :=
  assess_risk s.portfolio_data s.current_config

/-- One API call against the process state, with the clock and the hash
of `execute_trade` made explicit. -/
inductive ApiCall where
  | callGetConfig : ApiCall
  | callUpdateConfig : TradingConfig → ApiCall
  | callExecuteTrade : TradeExecution → Int → Nat → ApiCall
  | callGetPortfolio : ApiCall
  | callGetRiskAnalysis : ApiCall
  deriving Repr, DecidableEq

/-- The state effect of each endpoint: only `update_config` and
`execute_trade` assign to the globals (`src/main.py` lines 99-100 and
106, 118-123); the three read endpoints return values without writing. -/
def api_step (s : SystemState) : ApiCall → SystemState
  | ApiCall.callGetConfig => s
  | ApiCall.callUpdateConfig c => (update_config c s).2
  | ApiCall.callExecuteTrade e h now =>
    match execute_trade e h now s with
    | some r => r.2
    | none => s
  | ApiCall.callGetPortfolio => s
  | ApiCall.callGetRiskAnalysis => s

/-- Run a sequence of API calls from process start. -/
def run_calls (calls : List ApiCall) : SystemState :=
  calls.foldl api_step init_state

/-- A configuration violating the spec's range invariants: negative
`dca_amount`, `hedge_ratio` and `risk_limit` outside `[0,1]`. -/
def bad_config : TradingConfig :=
  { symbol := "BTC/USD"
    dca_amount := -100
    dca_interval := 24
    hedge_ratio := 2
    risk_limit := 5
    take_profit := 3/20 }

/-! ### Helper definitions for stating the execution-cycle lemmas -/

/-- The DCA intent produced inside a cycle at a nonzero price (the
`some` branch of `calculate_dca_position`). -/
def dca_intent_of (config : TradingConfig) (p : ℚ) (now : Nat) : TradeIntent :=
  { type := IntentType.DCA_BUY
    symbol := config.symbol
    size := config.dca_amount / p
    price := some p
    timestamp := now }

/-- The portfolio after one successful `execute_trade` cycle at price
`p` starting from portfolio `p0` (`src/main.py` lines 117-123). -/
def post_cycle_portfolio (config : TradingConfig) (p : ℚ) (now : Nat)
    (p0 : Portfolio) : Portfolio :=
  { total_value := p0.total_value
    positions := p0.positions ++ [dca_intent_of config p now]
    pnl := p0.total_value * ((p - 50000) / 50000) * (1/10)
    trades := p0.trades ++
      [dca_intent_of config p now, calculate_hedge config config.dca_amount now] }

/-! ### Helper lemmas -/

theorem calculate_dca_position_of_ne (config : TradingConfig) (p : ℚ)
    (now : Nat) (hp : p ≠ 0) :
    calculate_dca_position config p now = some (dca_intent_of config p now) := by
  unfold calculate_dca_position dca_intent_of
  rw [if_neg hp]

theorem execute_with_price_of_ne (e : TradeExecution) (p : ℚ) (now : Nat)
    (s : SystemState) (hp : p ≠ 0) :
    execute_with_price e p now s =
      some
        ({ execution_result := if e.simulate then "SUCCESS" else "EXECUTED"
           trades := [dca_intent_of e.config p now,
             calculate_hedge e.config e.config.dca_amount now]
           portfolio := post_cycle_portfolio e.config p now s.portfolio_data
           risk_assessment :=
             assess_risk (post_cycle_portfolio e.config p now s.portfolio_data)
               e.config
           current_price := p },
         { current_config := s.current_config
           portfolio_data := post_cycle_portfolio e.config p now s.portfolio_data }) := by
  unfold execute_with_price
  rw [calculate_dca_position_of_ne e.config p now hp]
  rfl

theorem execute_with_price_zero (e : TradeExecution) (now : Nat)
    (s : SystemState) : execute_with_price e 0 now s = none := by
  unfold execute_with_price calculate_dca_position
  rw [if_pos rfl]

theorem mock_price_bounds (h : Int) :
    45000 ≤ mock_price h ∧ mock_price h < 55000 := by
  have h1 : 0 ≤ h.emod 10000 := Int.emod_nonneg h (by norm_num)
  have h2 : h.emod 10000 < 10000 := Int.emod_lt_of_pos h (by norm_num)
  have h3 : ((-5000 : ℤ) : ℚ) ≤ ((h.emod 10000 - 5000 : ℤ) : ℚ) :=
    Int.cast_le.mpr (by omega)
  have h4 : ((h.emod 10000 - 5000 : ℤ) : ℚ) < ((5000 : ℤ) : ℚ) :=
    Int.cast_lt.mpr (by omega)
  unfold mock_price
  push_cast at h3 h4 ⊢
  constructor
  · linarith
  · linarith

theorem mock_price_pos (h : Int) : 0 < mock_price h :=
  lt_of_lt_of_le (by norm_num) (mock_price_bounds h).1

theorem mock_price_ne_zero (h : Int) : mock_price h ≠ 0 :=
  ne_of_gt (mock_price_pos h)

/-! ### Claim theorems -/

/-- C1: for every configuration and every `currentPrice > 0` (with
`config.dcaAmount > 0`), `calculate_dca_position` returns an intent with
type `DCA_BUY`, `size = dca_amount / currentPrice`,
`price = currentPrice` and `symbol = config.symbol`. -/
theorem calculate_dca_position_spec (config : TradingConfig)
    (current_price : ℚ) (now : Nat) (hp : 0 < current_price)
    (ha : 0 < config.dca_amount) :
    calculate_dca_position config current_price now =
      some
        { type := IntentType.DCA_BUY
          symbol := config.symbol
          size := config.dca_amount / current_price
          price := some current_price
          timestamp := now } :=
  calculate_dca_position_of_ne config current_price now (ne_of_gt hp)

/-- Witness for C1 at the spec's end-to-end scenario
(`dcaAmount = 100`, `currentPrice = 50000`, so `size = 0.002`). -/
theorem calculate_dca_position_spec_witness :
    (0 : ℚ) < 50000 ∧ 0 < default_config.dca_amount ∧
    calculate_dca_position default_config 50000 0 =
      some
        { type := IntentType.DCA_BUY
          symbol := "BTC/USD"
          size := 1/500
          price := some 50000
          timestamp := 0 } := by
  refine ⟨by norm_num, by norm_num [default_config], ?_⟩
  rw [calculate_dca_position_spec default_config 50000 0 (by norm_num)
    (by norm_num [default_config])]
  norm_num [default_config]

/-- C2: `assess_risk` returns `current_risk = |pnl| / total_value` when
`total_value > 0` and `0` otherwise; `within_limits` holds exactly when
`current_risk ≤ risk_limit`; the recommendation is `REDUCE_POSITION`
when `current_risk > risk_limit` and `CONTINUE` otherwise. -/
theorem assess_risk_spec (p : Portfolio) (c : TradingConfig) :
    (0 < p.total_value →
      (assess_risk p c).current_risk = |p.pnl| / p.total_value) ∧
    (¬ 0 < p.total_value → (assess_risk p c).current_risk = 0) ∧
    ((assess_risk p c).within_limits = true ↔
      (assess_risk p c).current_risk ≤ c.risk_limit) ∧
    ((assess_risk p c).recommendation =
      if c.risk_limit < (assess_risk p c).current_risk then "REDUCE_POSITION"
      else "CONTINUE") := by
  unfold assess_risk
  refine ⟨fun h => ?_, fun h => ?_, ?_, rfl⟩
  · simp only [if_pos h]
  · simp only [if_neg h]
  · simp only [decide_eq_true_eq]

/-- Witness for C2 at the spec's third end-to-end scenario:
`total_value = 10000`, `pnl = -1500`, so `current_risk = 0.15`. -/
theorem assess_risk_spec_witness :
    (0 : ℚ) <
      (Portfolio.mk 10000 [] (-1500) []).total_value ∧
    (assess_risk (Portfolio.mk 10000 [] (-1500) [])
      default_config).current_risk = 3/20 := by
  refine ⟨by norm_num, ?_⟩
  rw [(assess_risk_spec (Portfolio.mk 10000 [] (-1500) [])
    default_config).1 (by norm_num)]
  norm_num

/-- C3: `calculate_hedge` returns an intent with type `HEDGE`,
`size = notionalValue * hedge_ratio` and symbol
`config.symbol ++ "_HEDGE"`; and in every execute cycle the notional
value fed to it is `config.dca_amount` (`src/main.py` line 115). -/
theorem calculate_hedge_spec (config : TradingConfig)
    (notional_value : ℚ) (now : Nat) (hn : 0 ≤ notional_value) :
    calculate_hedge config notional_value now =
      { type := IntentType.HEDGE
        symbol := config.symbol ++ "_HEDGE"
        size := notional_value * config.hedge_ratio
        price := none
        timestamp := now } ∧
    (∀ (e : TradeExecution) (p : ℚ) (now2 : Nat) (s : SystemState)
      (r : ExecutionResult) (s2 : SystemState),
      execute_with_price e p now2 s = some (r, s2) →
      r.trades.getLast? =
        some (calculate_hedge e.config e.config.dca_amount now2)) := by
  refine ⟨rfl, fun e p now2 s r s2 hex => ?_⟩
  by_cases hp : p = 0
  · rw [hp, execute_with_price_zero] at hex
    exact absurd hex (by simp)
  · rw [execute_with_price_of_ne e p now2 s hp] at hex
    injection hex with hpair
    have hr : r = ({ execution_result := if e.simulate then "SUCCESS" else "EXECUTED"
                     trades := [dca_intent_of e.config p now2,
                       calculate_hedge e.config e.config.dca_amount now2]
                     portfolio := post_cycle_portfolio e.config p now2 s.portfolio_data
                     risk_assessment :=
                       assess_risk (post_cycle_portfolio e.config p now2 s.portfolio_data)
                         e.config
                     current_price := p } : ExecutionResult) :=
      congrArg Prod.fst hpair.symm
    rw [hr]
    rfl

/-- Witness for C3 at the spec's end-to-end scenario:
`notionalValue = 100`, `hedge_ratio = 0.3`, so `size = 30`. -/
theorem calculate_hedge_spec_witness :
    (0 : ℚ) ≤ 100 ∧
    calculate_hedge default_config 100 0 =
      { type := IntentType.HEDGE
        symbol := "BTC/USD_HEDGE"
        size := 30
        price := none
        timestamp := 0 } := by
  refine ⟨by norm_num, ?_⟩
  rw [(calculate_hedge_spec default_config 100 0 (by norm_num)).1]
  norm_num [default_config]
  rfl

/-- C4: every execute cycle succeeds, observes the mocked price, and
overwrites `pnl` with `total_value * ((price - 50000) / 50000) * 0.1`.
The statement holds for every starting state `s`, in particular for any
previous value of `s.portfolio_data.pnl`: the new `pnl` is a pure
function of `total_value` and the observed price, so the previous value
is replaced, not accumulated onto. -/
theorem execute_pnl_snapshot (e : TradeExecution) (h : Int) (now : Nat)
    (s : SystemState) :
    ∃ r s2, execute_trade e h now s = some (r, s2) ∧
      r.current_price = mock_price h ∧
      s2.portfolio_data.pnl =
        s2.portfolio_data.total_value *
          ((mock_price h - 50000) / 50000) * (1/10) := by
  refine ⟨_, _,
    execute_with_price_of_ne e (mock_price h) now s (mock_price_ne_zero h),
    rfl, rfl⟩

/-- C5: two consecutive execute cycles observing the same mocked price
(same hash value `h`) produce the same `pnl` value, and each cycle
grows `trades` by exactly 2 entries and `positions` by exactly 1. -/
theorem execute_same_price_pnl_growth (e : TradeExecution) (h : Int)
    (now now2 : Nat) (s : SystemState) :
    ∃ r1 s1 r2 s2,
      execute_trade e h now s = some (r1, s1) ∧
      execute_trade e h now2 s1 = some (r2, s2) ∧
      s2.portfolio_data.pnl = s1.portfolio_data.pnl ∧
      s1.portfolio_data.trades.length =
        s.portfolio_data.trades.length + 2 ∧
      s2.portfolio_data.trades.length =
        s1.portfolio_data.trades.length + 2 ∧
      s1.portfolio_data.positions.length =
        s.portfolio_data.positions.length + 1 ∧
      s2.portfolio_data.positions.length =
        s1.portfolio_data.positions.length + 1 := by
  refine ⟨_, _, _, _,
    execute_with_price_of_ne e (mock_price h) now s (mock_price_ne_zero h),
    execute_with_price_of_ne e (mock_price h) now2 _ (mock_price_ne_zero h),
    rfl, ?_, ?_, ?_, ?_⟩ <;>
    simp [post_cycle_portfolio]

/-- C8: `update_config` replaces the active configuration wholesale:
a subsequent `get_config` returns exactly the supplied configuration,
and nothing else in the state changes. -/
theorem set_config_then_get_config (c : TradingConfig) (s : SystemState) :
    get_config (update_config c s).2 = c ∧
    (update_config c s).2 = { s with current_config := c } :=
  ⟨rfl, rfl⟩

theorem api_step_total_value (s : SystemState) (op : ApiCall) :
    (api_step s op).portfolio_data.total_value =
      s.portfolio_data.total_value := by
  cases op with
  | callGetConfig => rfl
  | callUpdateConfig c => rfl
  | callExecuteTrade e h now =>
    show (match execute_trade e h now s with
      | some r => r.2
      | none => s).portfolio_data.total_value = s.portfolio_data.total_value
    rw [execute_trade,
      execute_with_price_of_ne e (mock_price h) now s (mock_price_ne_zero h)]
    rfl
  | callGetPortfolio => rfl
  | callGetRiskAnalysis => rfl

theorem foldl_api_step_total_value (calls : List ApiCall) :
    ∀ s : SystemState,
      (calls.foldl api_step s).portfolio_data.total_value =
        s.portfolio_data.total_value := by
  induction calls with
  | nil => intro s; rfl
  | cons op rest ih =>
    intro s
    rw [List.foldl_cons, ih, api_step_total_value]

/-- C9: no operation ever modifies `portfolio_data.total_value` — after
any sequence of API calls from process start it is still the seed value
`10000`; each execute cycle appends one entry to `positions` and two to
`trades` and overwrites `pnl`, leaving `total_value` untouched;
`update_config` leaves the portfolio untouched; and the three read
endpoints leave the whole state untouched. -/
theorem total_value_never_modified :
    (∀ calls : List ApiCall,
      (run_calls calls).portfolio_data.total_value = 10000) ∧
    (∀ (e : TradeExecution) (h : Int) (now : Nat) (s : SystemState),
      ∃ r s2, execute_trade e h now s = some (r, s2) ∧
        s2.portfolio_data.total_value = s.portfolio_data.total_value ∧
        s2.portfolio_data.positions =
          s.portfolio_data.positions ++
            [dca_intent_of e.config (mock_price h) now] ∧
        s2.portfolio_data.trades =
          s.portfolio_data.trades ++
            [dca_intent_of e.config (mock_price h) now,
             calculate_hedge e.config e.config.dca_amount now] ∧
        s2.portfolio_data.pnl =
          s.portfolio_data.total_value *
            ((mock_price h - 50000) / 50000) * (1/10) ∧
        s2.current_config = s.current_config) ∧
    (∀ (c : TradingConfig) (s : SystemState),
      (update_config c s).2.portfolio_data = s.portfolio_data) ∧
    (∀ s : SystemState,
      api_step s ApiCall.callGetConfig = s ∧
      api_step s ApiCall.callGetPortfolio = s ∧
      api_step s ApiCall.callGetRiskAnalysis = s) := by
  refine ⟨fun calls => foldl_api_step_total_value calls init_state,
    fun e h now s => ⟨_, _,
      execute_with_price_of_ne e (mock_price h) now s (mock_price_ne_zero h),
      rfl, rfl, rfl, rfl, rfl⟩,
    fun c s => rfl,
    fun s => ⟨rfl, rfl, rfl⟩⟩

/-- C10: the mocked price of `src/main.py` line 109 always lies in
`[45000, 55000)`, hence is strictly positive, so the DCA sizing
division in every execute cycle never divides by zero: the engine call
of line 112 never raises and the cycle always returns a result. -/
theorem mock_price_range_no_div_by_zero (h : Int) :
    (45000 ≤ mock_price h ∧ mock_price h < 55000 ∧ 0 < mock_price h) ∧
    (∀ (config : TradingConfig) (now : Nat),
      calculate_dca_position config (mock_price h) now ≠ none) ∧
    (∀ (e : TradeExecution) (now : Nat) (s : SystemState),
      (execute_trade e h now s).isSome = true) := by
  refine ⟨⟨(mock_price_bounds h).1, (mock_price_bounds h).2,
    mock_price_pos h⟩, fun config now => ?_, fun e now s => ?_⟩
  · rw [calculate_dca_position_of_ne config (mock_price h) now
      (mock_price_ne_zero h)]
    simp
  · rw [execute_trade,
      execute_with_price_of_ne e (mock_price h) now s (mock_price_ne_zero h)]
    rfl

/-- Counterexample to C6: at the non-positive price `-1` the cycle is
not rejected — `execute_with_price` (the body of `execute_trade` after
the price is obtained, `src/main.py` lines 112-134) returns a result
and commits the full mutation: `trades` gains 2 entries and `positions`
gains 1. -/
theorem negative_price_cycle_commits :
    ((-1 : ℚ) ≤ 0) ∧
    execute_with_price { config := default_config, simulate := true }
      (-1) 0 init_state ≠ none ∧
    Option.map (fun x => x.2.portfolio_data.trades.length)
      (execute_with_price { config := default_config, simulate := true }
        (-1) 0 init_state) = some 2 ∧
    Option.map (fun x => x.2.portfolio_data.positions.length)
      (execute_with_price { config := default_config, simulate := true }
        (-1) 0 init_state) = some 1 := by
  refine ⟨by norm_num, ?_, ?_, ?_⟩ <;>
    rw [execute_with_price_of_ne _ _ _ _ (by norm_num)] <;>
    simp [post_cycle_portfolio, init_state, init_portfolio]

/-- C6 (amended): there is no rejection logic in `execute_trade`; the
only invalid price the engine reacts to is an exactly-zero price, where
the sizing division raises before any mutation, aborting the cycle with
no partial state change.  A negative price would not be rejected, but
none can arise: the mocked price source only yields values in
`[45000, 55000)`, and no non-finite value exists in the model. -/
theorem invalid_price_actual_behavior :
    (∀ (e : TradeExecution) (now : Nat) (s : SystemState),
      execute_with_price e 0 now s = none) ∧
    (∀ h : Int, 45000 ≤ mock_price h ∧ mock_price h < 55000) :=
  ⟨execute_with_price_zero, mock_price_bounds⟩

/-- Counterexample to C7: `bad_config` violates every §3 range
invariant (`risk_limit = 5` and `hedge_ratio = 2` outside `[0,1]`,
`dca_amount = -100` non-positive), yet it is not rejected: `update_config`
stores it (a subsequent `get_config` returns it), and an execute cycle
run with it commits a full Portfolio State mutation. -/
theorem invalid_config_accepted :
    (1 < bad_config.risk_limit ∧ 1 < bad_config.hedge_ratio ∧
      bad_config.dca_amount ≤ 0) ∧
    get_config (update_config bad_config init_state).2 = bad_config ∧
    Option.map (fun x => x.2.portfolio_data.trades.length)
      (execute_with_price { config := bad_config, simulate := true }
        50000 0 init_state) = some 2 := by
  refine ⟨⟨by norm_num [bad_config], by norm_num [bad_config],
    by norm_num [bad_config]⟩, rfl, ?_⟩
  rw [execute_with_price_of_ne _ _ _ _ (by norm_num)]
  simp [post_cycle_portfolio, init_state, init_portfolio]

/-- C7 (amended): no range validation exists anywhere on the path from
the caller to the engine: `update_config` stores any configuration
wholesale, and `execute_trade` runs a full cycle with any
configuration, mutating Portfolio State, regardless of its field
values. -/
theorem config_never_validated (c : TradingConfig) (s : SystemState)
    (sim : Bool) (h : Int) (now : Nat) :
    get_config (update_config c s).2 = c ∧
    ∃ r s2,
      execute_trade { config := c, simulate := sim } h now s = some (r, s2) ∧
      s2.portfolio_data.trades.length =
        s.portfolio_data.trades.length + 2 := by
  refine ⟨rfl, _, _,
    execute_with_price_of_ne _ (mock_price h) now s (mock_price_ne_zero h),
    ?_⟩
  simp [post_cycle_portfolio]
